import Mathlib

/-!
Shallow embedding of the SignerAlgorithm module of `did-jwt`
(`src/unnamed/part_000`): the signing-algorithm adapters
(`ES256SignerAlg`, `ES256KSignerAlg`, `Ed25519SignerAlg`), the
process-wide algorithm registry `algorithms`, the registry lookup
`SignerAlg` and the guarded extension `AddSigningAlgorithm`.

Modelling conventions:
* JavaScript runtime values that can reach the adapters (the union
  `EcdsaSignature | string`, and in practice any value) are embedded as
  the inductive `JsValue`.
* A thrown `Error` is an `Except.error` carrying the message string.
* The asynchronous signer callback is embedded by explicit state
  passing: a `Signer` maps the payload and an invocation counter to a
  result and an updated counter; the counter models how many times the
  callback has been awaited, so that "invokes the signer exactly once"
  is statable.
* The mutable module-level `algorithms` dictionary is embedded by
  explicit state passing of a `Registry` association list.
* `toJose`, `fromJose` and the base64url codec live in `util.js`, which
  is not among the provided sources; they are modelled from the spec
  (see their doc comments).
-/

namespace DidJwt

/-- A JavaScript runtime value as far as the signer-algorithm module can
observe it: a string, a byte array, a number, `undefined`/`null`, or a
plain object given by its (ordered) fields. -/
inductive JsValue where
  | vstr (s : String)
  | vbytes (b : List Nat)
  | vnum (n : Nat)
  | vundef
  | vobj (fields : List (String × JsValue))

/-- Structured ECDSA signature, from the spec's data model:
`{ r: bytes, s: bytes, recoveryParam?: 0|1 }`. -/
structure EcdsaSignature where
  r : List Nat
  s : List Nat
  recoveryParam : Option Nat

/-- The base64url alphabet of RFC 4648 §5. -/
def b64Alphabet : List Char :=
  "ABCDEFGHIJKLMNOPQRSTUVWXYZabcdefghijklmnopqrstuvwxyz0123456789-_".toList

/-- The base64url character for a 6-bit value. -/
def b64Char (n : Nat) : Char := b64Alphabet.getD n 'A'

/-- The 6-bit value of a base64url character (characters outside the
alphabet are outside the modelled domain). -/
def b64Val (c : Char) : Nat := b64Alphabet.indexOf c

/-- Modelled from the spec: unpadded base64url encoding of a byte
sequence (`bytesToBase64url` of `util.js`, which is not among the
provided sources; the spec fixes the encoding to base64url without
padding). -/
def base64urlEncode : List Nat → List Char
  | [] => []
  | [b1] => [b64Char (b1 / 4), b64Char (b1 % 4 * 16)]
  | [b1, b2] =>
      [b64Char (b1 / 4), b64Char (b1 % 4 * 16 + b2 / 16), b64Char (b2 % 16 * 4)]
  | b1 :: b2 :: b3 :: rest =>
      b64Char (b1 / 4) :: b64Char (b1 % 4 * 16 + b2 / 16) ::
        b64Char (b2 % 16 * 4 + b3 / 64) :: b64Char (b3 % 64) :: base64urlEncode rest

/-- Modelled from the spec: base64url encoding as a string. -/
def bytesToBase64url (b : List Nat) : String := String.mk (base64urlEncode b)

/-- Modelled from the spec: unpadded base64url decoding back to bytes
(`base64ToBytes` of `util.js`, not among the provided sources). -/
def base64urlDecode : List Char → List Nat
  | c1 :: c2 :: c3 :: c4 :: rest =>
      (b64Val c1 * 4 + b64Val c2 / 16) ::
        (b64Val c2 % 16 * 16 + b64Val c3 / 4) ::
        (b64Val c3 % 4 * 64 + b64Val c4) :: base64urlDecode rest
  | [c1, c2, c3] =>
      [b64Val c1 * 4 + b64Val c2 / 16, b64Val c2 % 16 * 16 + b64Val c3 / 4]
  | [c1, c2] => [b64Val c1 * 4 + b64Val c2 / 16]
  | _ => []

/-- Modelled from the spec: base64url decoding of a string. -/
def base64ToBytes (s : String) : List Nat := base64urlDecode s.toList

/-- Modelled from the spec: `toJose` of `util.js` (not among the
provided sources). Encodes `r ‖ s` — and, when `recoverable` is set,
the appended recovery byte — as base64url; a recoverable encoding of a
signature that carries no recovery param is an error. -/
def toJose (sig : EcdsaSignature) (recoverable : Bool) : Except String String :=
  if recoverable then
    match sig.recoveryParam with
    | some p => .ok (bytesToBase64url (sig.r ++ sig.s ++ [p]))
    | none => .error "Signer did not return a recoveryParam"
  else
    .ok (bytesToBase64url (sig.r ++ sig.s))

/-- Modelled from the spec: `fromJose` of `util.js` (not among the
provided sources). Decodes a base64url JOSE signature into `r`
(bytes 0..31), `s` (bytes 32..63) and, when a 65th byte is present,
the recovery param. -/
def fromJose (jose : String) : EcdsaSignature :=
  let bytes := base64ToBytes jose
  { r := bytes.take 32
    s := (bytes.drop 32).take 32
    recoveryParam := if 64 < bytes.length then some (bytes.getD 64 0) else none }

/-- `instanceOfEcdsaSignature`: a value is classified as a structured
`EcdsaSignature` when it is an object that has both an `r` and an `s`
field. -/
def instanceOfEcdsaSignature (object : JsValue) : Bool :=
  match object with
  | .vobj fields =>
      (fields.any fun f => f.1 == "r") && (fields.any fun f => f.1 == "s")
  | _ => false

/-- Reads the `r`, `s` and `recoveryParam` fields of a structured
signature object back into an `EcdsaSignature`; `none` models a field
whose shape `toJose` cannot consume. -/
def readEcdsa (v : JsValue) : Option EcdsaSignature :=
  match v with
  | .vobj fields =>
      match (fields.find? fun f => f.1 == "r"), (fields.find? fun f => f.1 == "s") with
      | some (_, .vbytes r), some (_, .vbytes s) =>
          some { r := r
                 s := s
                 recoveryParam :=
                   match fields.find? fun f => f.1 == "recoveryParam" with
                   | some (_, .vnum p) => some p
                   | _ => none }
      | _, _ => none
  | _ => none

/-- The canonical object embedding of an `EcdsaSignature`, as a signer
would return it. -/
def sigToJs (sig : EcdsaSignature) : JsValue :=
  .vobj ([("r", .vbytes sig.r), ("s", .vbytes sig.s)] ++
    match sig.recoveryParam with
    | some p => [("recoveryParam", .vnum p)]
    | none => [])

/-- Applying `toJose` to a runtime value already classified as a
structured signature, as the adapters do. -/
def joseOfValue (v : JsValue) (recoverable : Bool) : Except String JsValue :=
  match readEcdsa v with
  | some sig => (toJose sig recoverable).map JsValue.vstr
  | none => .error "invalid_argument: invalid EcdsaSignature object"

/-- Applying `fromJose` to a runtime value: `fromJose` consumes a
base64url string, any other value is a type error. -/
def fromJoseValue (v : JsValue) : Except String EcdsaSignature :=
  match v with
  | .vstr s => .ok (fromJose s)
  | _ => .error "invalid_argument: fromJose expects a base64url string"

/-- A `Signer` callback: payload and invocation counter in, a result
(or thrown error) and the updated counter out. The counter records how
many times the callback has been awaited. -/
def Signer : Type := String → Nat → Except String JsValue × Nat

/-- A signing-algorithm adapter: payload and signer in, JOSE signature
(or thrown error) out, threading the signer-invocation counter. -/
def SignerAlgorithm : Type := String → Signer → Nat → Except String JsValue × Nat

/-- `ES256SignerAlg`: await the signer once; a structured signature is
JOSE-encoded (`toJose`, no recovery byte), anything else is returned
unchanged. -/
def ES256SignerAlg : SignerAlgorithm := fun payload signer n =>
  match signer payload n with
  | (.error e, m) => (.error e, m)
  | (.ok signature, m) =>
    if instanceOfEcdsaSignature signature then
      (joseOfValue signature false, m)
    else
      (.ok signature, m)

/-- `ES256KSignerAlg recoverable`: await the signer once; a structured
signature is JOSE-encoded (appending the recovery byte when
`recoverable`); a pre-encoded result is checked, when `recoverable`,
for a recovery param in its JOSE decoding and otherwise returned
unchanged. -/
def ES256KSignerAlg (recoverable : Bool) : SignerAlgorithm := fun payload signer n =>
  match signer payload n with
  | (.error e, m) => (.error e, m)
  | (.ok signature, m) =>
    if instanceOfEcdsaSignature signature then
      (joseOfValue signature recoverable, m)
    else
      if recoverable then
        match fromJoseValue signature with
        | .error e => (.error e, m)
        | .ok decoded =>
          if decoded.recoveryParam = none then
            (.error "not_supported: ES256K-R not supported when signer doesn't provide a recovery param", m)
          else
            (.ok signature, m)
      else
        (.ok signature, m)

/-- `Ed25519SignerAlg`: await the signer once; a non-structured result
is returned unchanged, a structured signature object is a
configuration error. -/
def Ed25519SignerAlg : SignerAlgorithm := fun payload signer n =>
  match signer payload n with
  | (.error e, m) => (.error e, m)
  | (.ok signature, m) =>
    if ¬ instanceOfEcdsaSignature signature then
      (.ok signature, m)
    else
      (.error "invalid_config: expected a signer function that returns a string instead of signature object", m)

/-- The registry state: the module-level `algorithms` dictionary,
embedded as an association list in insertion order. -/
abbrev Registry : Type := List (String × SignerAlgorithm)

/-- Own-key dictionary lookup: the first matching registered entry.
The JavaScript property read `algorithms[alg]` additionally resolves
inherited `Object.prototype` members; `readProp` builds that full
semantics on top of this lookup. -/
def lookupAlg : Registry → String → Option SignerAlgorithm
  | [], _ => none
  | (k, v) :: rest, alg => if k = alg then some v else lookupAlg rest alg

/-- The built-in registry contents: `ES256`, `ES256K`, `ES256K-R`
(recoverable compatibility mode), and `Ed25519`/`EdDSA` both bound to
the Ed25519 adapter. -/
def algorithms : Registry :=
  [("ES256", ES256SignerAlg),
   ("ES256K", ES256KSignerAlg false),
   ("ES256K-R", ES256KSignerAlg true),
   ("Ed25519", Ed25519SignerAlg),
   ("EdDSA", Ed25519SignerAlg)]

/-- `SignerAlg` restricted to own keys: resolve an algorithm
identifier against the registered entries; an absent identifier is an
unsupported-algorithm error. This is the source's behavior on every
identifier outside `objectPrototypeKeys`; `SignerAlgJs` models the
full property-access semantics including inherited members. Explicit
state passing returns the (unchanged) registry alongside the result. -/
def SignerAlg (alg : String) : Registry → Except String SignerAlgorithm × Registry :=
  fun reg =>
    (match lookupAlg reg alg with
     | some impl => .ok impl
     | none => .error ("not_supported: Unsupported algorithm " ++ alg), reg)

/-- The runtime value passed as the `impl` argument of
`AddSigningAlgorithm`: either an actual function or some non-callable
value (`null`, `undefined`, or any other non-function). -/
inductive ImplVal where
  | func (f : SignerAlgorithm)
  | notFunc

/-- `AddSigningAlgorithm` with the duplicate check restricted to own
keys. An empty name, a non-callable implementation and a duplicate key
are errors (checked in that order); otherwise the entry is appended to
the registry. This is the source's behavior on every name outside
`objectPrototypeKeys`; `AddSigningAlgorithmJs` models the source's
`in`-operator duplicate check, which also sees inherited
`Object.prototype` names. -/
def AddSigningAlgorithm (alg : String) (impl : ImplVal) :
    Registry → Except String Unit × Registry := fun reg =>
  if alg = "" then
    (.error "Invalid algorithm name: must be a non-empty string", reg)
  else
    match impl with
    | .notFunc => (.error "Invalid implementation: must be a function", reg)
    | .func f =>
      if (lookupAlg reg alg).isSome then
        (.error ("Algorithm \x27" ++ alg ++ "\x27 already exists"), reg)
      else
        (.ok (), reg ++ [(alg, f)])

/-- One call against the registry state: a resolve or a registration. -/
inductive RegistryCall where
  | resolve (alg : String)
  | register (alg : String) (impl : ImplVal)

/-- The registry state after one call (results discarded). -/
def runCall : RegistryCall → Registry → Registry
  | .resolve alg, reg => (SignerAlg alg reg).2
  | .register alg impl, reg => (AddSigningAlgorithm alg impl reg).2

/-- The registry state after a sequence of calls. -/
def runCalls : List RegistryCall → Registry → Registry
  | [], reg => reg
  | c :: rest, reg => runCalls rest (runCall c reg)

/-- A signer that records each invocation by bumping the counter,
otherwise answering with a fixed result function. -/
def countingSigner (f : String → Except String JsValue) : Signer :=
  fun payload k => (f payload, k + 1)

/-- The property names every plain object literal inherits from
`Object.prototype`. A property read (`algorithms[alg]`) and the `in`
operator (`alg in algorithms`) both see these even when the name was
never registered, and each of them is bound to a truthy value (a
method, and `Object.prototype` itself for the `__proto__` accessor). -/
def objectPrototypeKeys : List String :=
  ["constructor", "hasOwnProperty", "isPrototypeOf", "propertyIsEnumerable",
   "toLocaleString", "toString", "valueOf", "__defineGetter__",
   "__defineSetter__", "__lookupGetter__", "__lookupSetter__", "__proto__"]

/-- The outcome of the JavaScript property read `algorithms[alg]`: an
own entry of the dictionary (a registered adapter), a truthy member
inherited from `Object.prototype` (which is no adapter), or
`undefined` (falsy). -/
inductive PropRead where
  | own (f : SignerAlgorithm)
  | inheritedMember (name : String)
  | absent

/-- JavaScript property read `algorithms[alg]`: an own key shadows the
prototype; otherwise the name resolves through the prototype chain to
the inherited `Object.prototype` member, and only an absent name gives
`undefined`. -/
def readProp (reg : Registry) (alg : String) : PropRead :=
  match lookupAlg reg alg with
  | some f => .own f
  | none => if alg ∈ objectPrototypeKeys then .inheritedMember alg else .absent

/-- `SignerAlg` with full JavaScript property-access semantics: the
read `algorithms[alg]` traverses the prototype chain, and only a falsy
result (`undefined`) triggers the `not_supported` throw — an inherited
`Object.prototype` member is truthy and therefore returned (the
TypeScript annotation casts it to `SignerAlgorithm`, though it is no
adapter). `SignerAlg` above is the own-key restriction of this
function, with which it agrees on every name outside
`objectPrototypeKeys` (`signerAlgJs_agrees`). -/
def SignerAlgJs (alg : String) : Registry → Except String PropRead × Registry :=
  fun reg =>
    (match readProp reg alg with
     | .absent => .error ("not_supported: Unsupported algorithm " ++ alg)
     | r => .ok r, reg)

/-- `AddSigningAlgorithm` with full JavaScript semantics for the
duplicate check: `alg in algorithms` is true for own keys and for
inherited `Object.prototype` names alike, so both throw the
already-exists error. Agrees with the own-key `AddSigningAlgorithm`
above on every name outside `objectPrototypeKeys`
(`addSigningJs_agrees`). -/
def AddSigningAlgorithmJs (alg : String) (impl : ImplVal) :
    Registry → Except String Unit × Registry := fun reg =>
  if alg = "" then
    (.error "Invalid algorithm name: must be a non-empty string", reg)
  else
    match impl with
    | .notFunc => (.error "Invalid implementation: must be a function", reg)
    | .func f =>
      if (lookupAlg reg alg).isSome = true ∨ alg ∈ objectPrototypeKeys then
        (.error ("Algorithm \x27" ++ alg ++ "\x27 already exists"), reg)
      else
        (.ok (), reg ++ [(alg, f)])

end DidJwt

namespace DidJwt

theorem readEcdsa_sigToJs (sig : EcdsaSignature) : readEcdsa (sigToJs sig) = some sig := by
  obtain ⟨r, s, rp⟩ := sig
  cases rp <;> rfl

theorem instanceOf_sigToJs (sig : EcdsaSignature) :
    instanceOfEcdsaSignature (sigToJs sig) = true := by
  obtain ⟨r, s, rp⟩ := sig
  cases rp <;> rfl

theorem lookupAlg_append (reg : Registry) (x : String × SignerAlgorithm)
    (alg : String) (f : SignerAlgorithm) (h : lookupAlg reg alg = some f) :
    lookupAlg (reg ++ [x]) alg = some f := by
  induction reg with
  | nil => simp [lookupAlg] at h
  | cons hd tl ih =>
    obtain ⟨k, v⟩ := hd
    by_cases hk : k = alg
    · simp [lookupAlg, hk] at h ⊢
      exact h
    · simp [lookupAlg, hk] at h ⊢
      exact ih h

theorem lookupAlg_append_self (reg : Registry) (alg : String) (f : SignerAlgorithm)
    (h : lookupAlg reg alg = none) : lookupAlg (reg ++ [(alg, f)]) alg = some f := by
  induction reg with
  | nil => simp [lookupAlg]
  | cons hd tl ih =>
    obtain ⟨k, v⟩ := hd
    by_cases hk : k = alg
    · simp [lookupAlg, hk] at h
    · simp [lookupAlg, hk] at h ⊢
      exact ih h

theorem addSigning_error_preserves (reg reg2 : Registry) (alg : String)
    (impl : ImplVal) (e : String)
    (h : AddSigningAlgorithm alg impl reg = (.error e, reg2)) : reg2 = reg := by
  unfold AddSigningAlgorithm at h
  by_cases h0 : alg = ""
  · simp [h0] at h
    exact h.2.symm
  · cases impl with
    | notFunc =>
      simp [h0] at h
      exact h.2.symm
    | func f =>
      by_cases hdup : (lookupAlg reg alg).isSome
      · simp [h0, hdup] at h
        exact h.2.symm
      · simp [h0, hdup] at h

theorem runCall_lookup (c : RegistryCall) (reg : Registry) (alg : String)
    (f : SignerAlgorithm) (h : lookupAlg reg alg = some f) :
    lookupAlg (runCall c reg) alg = some f := by
  cases c with
  | resolve a => exact h
  | register a impl =>
    show lookupAlg (AddSigningAlgorithm a impl reg).2 alg = some f
    unfold AddSigningAlgorithm
    by_cases h0 : a = ""
    · simpa [h0] using h
    · cases impl with
      | notFunc => simpa [h0] using h
      | func g =>
        by_cases hdup : (lookupAlg reg a).isSome
        · simpa [h0, hdup] using h
        · simp [h0, hdup]
          exact lookupAlg_append reg (a, g) alg f h

theorem runCalls_lookup (calls : List RegistryCall) (reg : Registry) (alg : String)
    (f : SignerAlgorithm) (h : lookupAlg reg alg = some f) :
    lookupAlg (runCalls calls reg) alg = some f := by
  induction calls generalizing reg with
  | nil => exact h
  | cons c rest ih => exact ih (runCall c reg) (runCall_lookup c reg alg f h)

theorem lookupAlg_algorithms_none (alg : String)
    (h : alg ∉ ["ES256", "ES256K", "ES256K-R", "Ed25519", "EdDSA"]) :
    lookupAlg algorithms alg = none := by
  simp only [List.mem_cons, List.mem_singleton, List.not_mem_nil, or_false,
    not_or] at h
  obtain ⟨h1, h2, h3, h4, h5⟩ := h
  simp only [algorithms, lookupAlg]
  rw [if_neg fun e => h1 e.symm, if_neg fun e => h2 e.symm,
    if_neg fun e => h3 e.symm, if_neg fun e => h4 e.symm,
    if_neg fun e => h5 e.symm]

theorem signerAlgJs_agrees (reg : Registry) (alg : String)
    (h : alg ∉ objectPrototypeKeys) :
    (SignerAlgJs alg reg).1 = ((SignerAlg alg reg).1).map PropRead.own := by
  cases hl : lookupAlg reg alg <;>
    simp [SignerAlgJs, SignerAlg, readProp, hl, h, Except.map]

theorem addSigningJs_agrees (reg : Registry) (alg : String) (impl : ImplVal)
    (h : alg ∉ objectPrototypeKeys) :
    AddSigningAlgorithmJs alg impl reg = AddSigningAlgorithm alg impl reg := by
  unfold AddSigningAlgorithmJs AddSigningAlgorithm
  by_cases h0 : alg = ""
  · simp [h0]
  · cases impl with
    | notFunc => simp [h0]
    | func f =>
      by_cases hs : (lookupAlg reg alg).isSome = true <;> simp [h0, hs, h]

/-- C1 counterexample: `toString` is none of the five built-in
identifiers, yet `SignerAlg "toString"` does not fail — the property
read finds the truthy inherited `Object.prototype.toString` and
returns it. -/
theorem claim_C1_counterexample :
    "toString" ∉ ["ES256", "ES256K", "ES256K-R", "Ed25519", "EdDSA"] ∧
    (SignerAlgJs "toString" algorithms).1 = .ok (.inheritedMember "toString") ∧
    (SignerAlgJs "toString" algorithms).1 ≠
      .error ("not_supported: Unsupported algorithm " ++ "toString") :=
  ⟨by decide, rfl, fun h => nomatch h⟩

/-- C1 (amended): against the built-in registry, `SignerAlg alg`
resolves to a registered adapter exactly when `alg` is one of `ES256`,
`ES256K`, `ES256K-R`, `Ed25519`, `EdDSA`; any other identifier that is
not an `Object.prototype` property name fails with the
unsupported-algorithm error naming `alg`; an `Object.prototype`
property name such as `toString` is not an error — the truthy
inherited member is returned instead. -/
theorem claim_C1_prototype_resolution (alg : String) :
    (alg ∈ ["ES256", "ES256K", "ES256K-R", "Ed25519", "EdDSA"] →
      ∃ f, (SignerAlgJs alg algorithms).1 = .ok (.own f)) ∧
    (alg ∉ ["ES256", "ES256K", "ES256K-R", "Ed25519", "EdDSA"] →
      alg ∉ objectPrototypeKeys →
      (SignerAlgJs alg algorithms).1 =
        .error ("not_supported: Unsupported algorithm " ++ alg)) ∧
    (alg ∉ ["ES256", "ES256K", "ES256K-R", "Ed25519", "EdDSA"] →
      alg ∈ objectPrototypeKeys →
      (SignerAlgJs alg algorithms).1 = .ok (.inheritedMember alg)) := by
  refine ⟨?_, ?_, ?_⟩
  · intro h
    simp only [List.mem_cons, List.mem_singleton, List.not_mem_nil, or_false] at h
    rcases h with h | h | h | h | h <;> subst h <;> exact ⟨_, rfl⟩
  · intro h hp
    have hn := lookupAlg_algorithms_none alg h
    simp [SignerAlgJs, readProp, hn, hp]
  · intro h hp
    have hn := lookupAlg_algorithms_none alg h
    simp [SignerAlgJs, readProp, hn, hp]

theorem claim_C1_prototype_resolution_witness :
    (∃ f, (SignerAlgJs "ES256" algorithms).1 = .ok (.own f)) ∧
    (SignerAlgJs "RS256" algorithms).1 =
      .error ("not_supported: Unsupported algorithm " ++ "RS256") ∧
    (SignerAlgJs "toString" algorithms).1 = .ok (.inheritedMember "toString") :=
  ⟨(claim_C1_prototype_resolution "ES256").1 (by simp),
   (claim_C1_prototype_resolution "RS256").2.1 (by simp) (by decide),
   (claim_C1_prototype_resolution "toString").2.2 (by simp) (by decide)⟩

/-- C2 counterexample: `toString` is not a registry entry, its name is
non-empty and the implementation is a function, yet registration fails
with the already-exists error, because `toString in algorithms` is
true through `Object.prototype` inheritance. -/
theorem claim_C2_counterexample :
    lookupAlg algorithms "toString" = none ∧
    AddSigningAlgorithmJs "toString" (.func ES256SignerAlg) algorithms =
      (.error ("Algorithm \x27toString\x27 already exists"), algorithms) :=
  ⟨rfl, rfl⟩

/-- C2 (amended): `AddSigningAlgorithm` fails on an empty name, on a
non-callable implementation, and on a name the `in` operator already
sees — an own registry key or an inherited `Object.prototype` property
name — checked in that order; otherwise it succeeds, after which
`SignerAlg` resolves the name to exactly the registered
implementation. -/
theorem claim_C2_prototype_registration (reg : Registry) (alg : String) :
    (∀ impl, alg = "" →
      AddSigningAlgorithmJs alg impl reg =
        (.error "Invalid algorithm name: must be a non-empty string", reg)) ∧
    (alg ≠ "" →
      AddSigningAlgorithmJs alg .notFunc reg =
        (.error "Invalid implementation: must be a function", reg)) ∧
    (∀ f, alg ≠ "" →
      ((lookupAlg reg alg).isSome = true ∨ alg ∈ objectPrototypeKeys) →
      AddSigningAlgorithmJs alg (.func f) reg =
        (.error ("Algorithm \x27" ++ alg ++ "\x27 already exists"), reg)) ∧
    (∀ f, alg ≠ "" → lookupAlg reg alg = none → alg ∉ objectPrototypeKeys →
      (AddSigningAlgorithmJs alg (.func f) reg).1 = .ok () ∧
      (SignerAlgJs alg (AddSigningAlgorithmJs alg (.func f) reg).2).1 =
        .ok (.own f)) := by
  refine ⟨?_, ?_, ?_, ?_⟩
  · intro impl h
    simp [AddSigningAlgorithmJs, h]
  · intro h
    simp [AddSigningAlgorithmJs, h]
  · intro f h hdup
    simp only [AddSigningAlgorithmJs, if_neg h]
    rw [if_pos hdup]
  · intro f h hnone hproto
    have hpair : AddSigningAlgorithmJs alg (.func f) reg =
        (.ok (), reg ++ [(alg, f)]) := by
      simp [AddSigningAlgorithmJs, h, hnone, hproto]
    rw [hpair]
    refine ⟨rfl, ?_⟩
    simp [SignerAlgJs, readProp, lookupAlg_append_self reg alg f hnone]

theorem claim_C2_prototype_registration_witness :
    (AddSigningAlgorithmJs "RS256" (.func ES256SignerAlg) algorithms).1 = .ok () ∧
    (SignerAlgJs "RS256"
      (AddSigningAlgorithmJs "RS256" (.func ES256SignerAlg) algorithms).2).1 =
      .ok (.own ES256SignerAlg) :=
  (claim_C2_prototype_registration algorithms "RS256").2.2.2 ES256SignerAlg
    (by decide) rfl (by decide)

/-- C3: the registry is append-only with unique keys — once an
identifier maps to an adapter, after any sequence of resolve/register
calls it still resolves to that same adapter, and any registration
under the existing key fails. -/
theorem claim_C3_append_only (reg : Registry) (alg : String) (f : SignerAlgorithm)
    (h : lookupAlg reg alg = some f) :
    (∀ calls, (SignerAlg alg (runCalls calls reg)).1 = .ok f) ∧
    (∀ impl, ∃ e, (AddSigningAlgorithm alg impl reg).1 = .error e) := by
  constructor
  · intro calls
    show (match lookupAlg (runCalls calls reg) alg with
      | some impl => Except.ok impl
      | none => Except.error ("not_supported: Unsupported algorithm " ++ alg)) = _
    rw [runCalls_lookup calls reg alg f h]
  · intro impl
    unfold AddSigningAlgorithm
    by_cases h0 : alg = ""
    · exact ⟨"Invalid algorithm name: must be a non-empty string", by simp [h0]⟩
    · cases impl with
      | notFunc =>
        exact ⟨"Invalid implementation: must be a function", by simp [h0]⟩
      | func g =>
        have hdup : (lookupAlg reg alg).isSome = true := by
          rw [h]; rfl
        exact ⟨"Algorithm \x27" ++ alg ++ "\x27 already exists", by simp [h0, hdup]⟩

theorem claim_C3_append_only_witness :
    (SignerAlg "ES256"
      (runCalls [RegistryCall.register "RS256" (.func Ed25519SignerAlg)] algorithms)).1 =
      .ok ES256SignerAlg ∧
    ∃ e, (AddSigningAlgorithm "ES256" (.func Ed25519SignerAlg) algorithms).1 = .error e :=
  ⟨(claim_C3_append_only algorithms "ES256" ES256SignerAlg rfl).1
      [RegistryCall.register "RS256" (.func Ed25519SignerAlg)],
   (claim_C3_append_only algorithms "ES256" ES256SignerAlg rfl).2
      (.func Ed25519SignerAlg)⟩

/-- C4: the built-in `Ed25519` and `EdDSA` entries resolve to the same
adapter, so on every payload, signer and state the two resolved
adapters produce identical results. -/
theorem claim_C4_eddsa_alias :
    ∃ f g : SignerAlgorithm,
      (SignerAlg "Ed25519" algorithms).1 = .ok f ∧
      (SignerAlg "EdDSA" algorithms).1 = .ok g ∧
      ∀ (payload : String) (signer : Signer) (n : Nat),
        f payload signer n = g payload signer n :=
  ⟨Ed25519SignerAlg, Ed25519SignerAlg, rfl, rfl, fun _ _ _ => rfl⟩

/-- C5: the ES256 and ES256K adapters encode a structured signature as
the base64url JOSE encoding of `r ‖ s` with no recovery byte, and pass
a pre-encoded string through unchanged. -/
theorem claim_C5_ec_encoding (signer : Signer) (payload : String) (n m : Nat) :
    (∀ sig : EcdsaSignature, signer payload n = (.ok (sigToJs sig), m) →
      ES256SignerAlg payload signer n =
        (.ok (.vstr (bytesToBase64url (sig.r ++ sig.s))), m) ∧
      ES256KSignerAlg false payload signer n =
        (.ok (.vstr (bytesToBase64url (sig.r ++ sig.s))), m)) ∧
    (∀ str : String, signer payload n = (.ok (.vstr str), m) →
      ES256SignerAlg payload signer n = (.ok (.vstr str), m) ∧
      ES256KSignerAlg false payload signer n = (.ok (.vstr str), m)) := by
  constructor
  · intro sig hsig
    constructor
    · simp [ES256SignerAlg, hsig, instanceOf_sigToJs, joseOfValue,
        readEcdsa_sigToJs, toJose, Except.map]
    · simp [ES256KSignerAlg, hsig, instanceOf_sigToJs, joseOfValue,
        readEcdsa_sigToJs, toJose, Except.map]
  · intro str hsig
    constructor
    · simp [ES256SignerAlg, hsig, instanceOfEcdsaSignature]
    · simp [ES256KSignerAlg, hsig, instanceOfEcdsaSignature]

theorem claim_C5_ec_encoding_witness :
    ES256SignerAlg "msg"
      (fun _ k => (Except.ok (sigToJs ⟨[1], [2], none⟩), k)) 0 =
      (.ok (.vstr (bytesToBase64url ([1] ++ [2]))), 0) ∧
    ES256KSignerAlg false "msg"
      (fun _ k => (Except.ok (JsValue.vstr "sig64"), k)) 0 =
      (.ok (.vstr "sig64"), 0) :=
  ⟨((claim_C5_ec_encoding (fun _ k => (Except.ok (sigToJs ⟨[1], [2], none⟩), k))
      "msg" 0 0).1 ⟨[1], [2], none⟩ rfl).1,
   ((claim_C5_ec_encoding (fun _ k => (Except.ok (JsValue.vstr "sig64"), k))
      "msg" 0 0).2 "sig64" rfl).2⟩

/-- C6: the ES256K-R adapter rejects a pre-encoded string whose JOSE
decoding carries no recovery param with the `not_supported` error, and
appends the recovery byte to `r ‖ s` for a structured signature. -/
theorem claim_C6_recoverable (signer : Signer) (payload : String) (n m : Nat) :
    (∀ str : String, signer payload n = (.ok (.vstr str), m) →
      (fromJose str).recoveryParam = none →
      ES256KSignerAlg true payload signer n =
        (.error "not_supported: ES256K-R not supported when signer doesn't provide a recovery param", m)) ∧
    (∀ (sig : EcdsaSignature) (b : Nat), sig.recoveryParam = some b →
      signer payload n = (.ok (sigToJs sig), m) →
      ES256KSignerAlg true payload signer n =
        (.ok (.vstr (bytesToBase64url (sig.r ++ sig.s ++ [b]))), m)) := by
  constructor
  · intro str hsig hrec
    simp [ES256KSignerAlg, hsig, instanceOfEcdsaSignature, fromJoseValue, hrec]
  · intro sig b hb hsig
    simp [ES256KSignerAlg, hsig, instanceOf_sigToJs, joseOfValue,
      readEcdsa_sigToJs, toJose, hb, Except.map]

theorem claim_C6_recoverable_witness :
    ES256KSignerAlg true "msg"
      (fun _ k => (Except.ok (JsValue.vstr ""), k)) 0 =
      (.error "not_supported: ES256K-R not supported when signer doesn't provide a recovery param", 0) ∧
    ES256KSignerAlg true "msg"
      (fun _ k => (Except.ok (sigToJs ⟨[1], [2], some 1⟩), k)) 0 =
      (.ok (.vstr (bytesToBase64url ([1] ++ [2] ++ [1]))), 0) :=
  ⟨(claim_C6_recoverable (fun _ k => (Except.ok (JsValue.vstr ""), k))
      "msg" 0 0).1 "" rfl rfl,
   (claim_C6_recoverable (fun _ k => (Except.ok (sigToJs ⟨[1], [2], some 1⟩), k))
      "msg" 0 0).2 ⟨[1], [2], some 1⟩ 1 rfl rfl⟩

/-- C7: the EdDSA/Ed25519 adapter passes a pre-encoded string through
unchanged and rejects a structured signature with the `invalid_config`
error. -/
theorem claim_C7_eddsa_shape (signer : Signer) (payload : String) (n m : Nat) :
    (∀ str : String, signer payload n = (.ok (.vstr str), m) →
      Ed25519SignerAlg payload signer n = (.ok (.vstr str), m)) ∧
    (∀ sig : EcdsaSignature, signer payload n = (.ok (sigToJs sig), m) →
      Ed25519SignerAlg payload signer n =
        (.error "invalid_config: expected a signer function that returns a string instead of signature object", m)) := by
  constructor
  · intro str hsig
    simp [Ed25519SignerAlg, hsig, instanceOfEcdsaSignature]
  · intro sig hsig
    simp [Ed25519SignerAlg, hsig, instanceOf_sigToJs]

theorem claim_C7_eddsa_shape_witness :
    Ed25519SignerAlg "msg"
      (fun _ k => (Except.ok (JsValue.vstr "edsig"), k)) 0 =
      (.ok (.vstr "edsig"), 0) ∧
    Ed25519SignerAlg "msg"
      (fun _ k => (Except.ok (sigToJs ⟨[1], [2], none⟩), k)) 0 =
      (.error "invalid_config: expected a signer function that returns a string instead of signature object", 0) :=
  ⟨(claim_C7_eddsa_shape (fun _ k => (Except.ok (JsValue.vstr "edsig"), k))
      "msg" 0 0).1 "edsig" rfl,
   (claim_C7_eddsa_shape (fun _ k => (Except.ok (sigToJs ⟨[1], [2], none⟩), k))
      "msg" 0 0).2 ⟨[1], [2], none⟩ rfl⟩

theorem adapters_snd (signer : Signer) (payload : String) (n m : Nat)
    (r : Except String JsValue) (h : signer payload n = (r, m)) :
    (ES256SignerAlg payload signer n).2 = m ∧
    (ES256KSignerAlg false payload signer n).2 = m ∧
    (ES256KSignerAlg true payload signer n).2 = m ∧
    (Ed25519SignerAlg payload signer n).2 = m := by
  refine ⟨?_, ?_, ?_, ?_⟩ <;>
    · simp only [ES256SignerAlg, ES256KSignerAlg, Ed25519SignerAlg, h]
      rcases r with e | v
      · rfl
      · by_cases hi : instanceOfEcdsaSignature v <;> simp [hi] <;>
          rcases hfv : fromJoseValue v with e2 | dec <;> simp [hfv] <;>
          by_cases hrp : dec.recoveryParam = none <;> simp [hrp]

/-- C8: every built-in adapter awaits the signer exactly once — with a
counting signer the invocation counter advances by exactly one — and a
signer failure is propagated verbatim as the adapter's failure. -/
theorem claim_C8_single_call :
    (∀ (f : String → Except String JsValue) (payload : String) (n : Nat),
      (ES256SignerAlg payload (countingSigner f) n).2 = n + 1 ∧
      (ES256KSignerAlg false payload (countingSigner f) n).2 = n + 1 ∧
      (ES256KSignerAlg true payload (countingSigner f) n).2 = n + 1 ∧
      (Ed25519SignerAlg payload (countingSigner f) n).2 = n + 1) ∧
    (∀ (signer : Signer) (payload : String) (n m : Nat) (e : String),
      signer payload n = (.error e, m) →
      ES256SignerAlg payload signer n = (.error e, m) ∧
      ES256KSignerAlg false payload signer n = (.error e, m) ∧
      ES256KSignerAlg true payload signer n = (.error e, m) ∧
      Ed25519SignerAlg payload signer n = (.error e, m)) := by
  constructor
  · intro f payload n
    exact adapters_snd (countingSigner f) payload n (n + 1) (f payload) rfl
  · intro signer payload n m e h
    refine ⟨?_, ?_, ?_, ?_⟩ <;>
      simp [ES256SignerAlg, ES256KSignerAlg, Ed25519SignerAlg, h]

theorem claim_C8_single_call_witness :
    (ES256SignerAlg "msg" (countingSigner fun _ => Except.ok (JsValue.vstr "x")) 0).2 = 0 + 1 ∧
    ES256SignerAlg "msg" (fun _ k => (Except.error "boom", k)) 0 = (.error "boom", 0) :=
  ⟨(claim_C8_single_call.1 (fun _ => Except.ok (JsValue.vstr "x")) "msg" 0).1,
   (claim_C8_single_call.2 (fun _ k => (Except.error "boom", k)) "msg" 0 0 "boom" rfl).1⟩

theorem instanceOf_eq_true_iff (v : JsValue) :
    instanceOfEcdsaSignature v = true ↔
      ∃ fields, v = .vobj fields ∧
        (∃ p ∈ fields, p.1 = "r") ∧ (∃ p ∈ fields, p.1 = "s") := by
  cases v <;> simp [instanceOfEcdsaSignature, List.any_eq_true, beq_iff_eq]

/-- C9: a signer result counts as a structured `EcdsaSignature` exactly
when it is an object with both an `r` and an `s` field, so an object
missing `r` or `s` is passed through unchanged by the ES256/ES256K
adapters even though it is not a string. -/
theorem claim_C9_classification :
    (∀ v : JsValue, instanceOfEcdsaSignature v = true ↔
      ∃ fields, v = .vobj fields ∧
        (∃ p ∈ fields, p.1 = "r") ∧ (∃ p ∈ fields, p.1 = "s")) ∧
    (∀ (signer : Signer) (payload : String) (n m : Nat)
        (fields : List (String × JsValue)),
      ((¬ ∃ p ∈ fields, p.1 = "r") ∨ (¬ ∃ p ∈ fields, p.1 = "s")) →
      signer payload n = (.ok (.vobj fields), m) →
      ES256SignerAlg payload signer n = (.ok (.vobj fields), m) ∧
      ES256KSignerAlg false payload signer n = (.ok (.vobj fields), m)) := by
  refine ⟨instanceOf_eq_true_iff, ?_⟩
  intro signer payload n m fields hmiss hsig
  have hfalse : instanceOfEcdsaSignature (.vobj fields) = false := by
    rw [Bool.eq_false_iff]
    intro htrue
    obtain ⟨fields2, heq, hr, hs⟩ := (instanceOf_eq_true_iff _).mp htrue
    cases heq
    rcases hmiss with hmiss | hmiss
    · exact hmiss hr
    · exact hmiss hs
  constructor
  · simp [ES256SignerAlg, hsig, hfalse]
  · simp [ES256KSignerAlg, hsig, hfalse]

theorem claim_C9_classification_witness :
    (instanceOfEcdsaSignature (.vobj [("x", JsValue.vnum 1)]) = true ↔
      ∃ fields, JsValue.vobj [("x", JsValue.vnum 1)] = .vobj fields ∧
        (∃ p ∈ fields, p.1 = "r") ∧ (∃ p ∈ fields, p.1 = "s")) ∧
    ES256SignerAlg "msg"
      (fun _ k => (Except.ok (JsValue.vobj [("x", JsValue.vnum 1)]), k)) 0 =
      (.ok (.vobj [("x", JsValue.vnum 1)]), 0) :=
  ⟨claim_C9_classification.1 (.vobj [("x", JsValue.vnum 1)]),
   (claim_C9_classification.2
      (fun _ k => (Except.ok (JsValue.vobj [("x", JsValue.vnum 1)]), k))
      "msg" 0 0 [("x", JsValue.vnum 1)] (Or.inl (by simp)) rfl).1⟩

/-- C10: registry operations are atomic on error — a failing
`AddSigningAlgorithm` call returns the registry unchanged, `SignerAlg`
never modifies the registry, and after a failed call every previously
resolvable algorithm still resolves to the same adapter. -/
theorem claim_C10_error_atomicity (reg : Registry) :
    (∀ alg, (SignerAlg alg reg).2 = reg) ∧
    (∀ alg impl e reg2, AddSigningAlgorithm alg impl reg = (.error e, reg2) →
      reg2 = reg ∧
      ∀ a f, lookupAlg reg a = some f → (SignerAlg a reg2).1 = .ok f) := by
  constructor
  · intro alg
    rfl
  · intro alg impl e reg2 h
    have hr := addSigning_error_preserves reg reg2 alg impl e h
    subst hr
    refine ⟨rfl, ?_⟩
    intro a f hf
    simp [SignerAlg, hf]

theorem claim_C10_error_atomicity_witness :
    (SignerAlg "ES256" algorithms).1 = .ok ES256SignerAlg :=
  ((claim_C10_error_atomicity algorithms).2 "ES256" (ImplVal.func Ed25519SignerAlg)
      ("Algorithm \x27ES256\x27 already exists") algorithms rfl).2
    "ES256" ES256SignerAlg rfl

end DidJwt
